import Mathlib

/-!
Verification of the code-generation pipeline of `src/app.py`
(Universal App Builder, single-file Streamlit app).

The Python source is shallowly embedded: dictionaries holding component
descriptors become a `Component` structure whose optional keys are `Option`
fields (`c.get(k, d)` becomes `(field).getD d`), the project dictionary
becomes a `Project` structure, generators returning `dict`s of path/content
pairs become functions returning association lists in the dictionary's
insertion order, and Python string operations are given explicit,
executable counterparts (`pyStrip` for `str.strip`, `splitChar` for
`str.split` with a one-character separator, `pyJoinSep` for `sep.join`,
`pyOr` for `x or y` on strings, where the empty string is falsy).
Python triple-quoted f-strings are transcribed as explicit concatenations;
a trailing `.rstrip()` applied to a template whose tail is constant is
transcribed by writing the constant tail already stripped.
-/

/-! ## Python string primitives -/

/-- Whitespace for `str.strip` (the ASCII subset, which covers every string
this program strips). -/
def pyIsSpace (c : Char) : Bool :=
  c == ' ' || c == '\t' || c == '\n' || c == '\r' || c == '\x0b' || c == '\x0c'

/-- Python `s.strip()`: drop leading and trailing whitespace. -/
def pyStrip (s : String) : String :=
  String.mk (((s.data.dropWhile pyIsSpace).reverse.dropWhile pyIsSpace).reverse)

/-- Splitting a character list at every occurrence of one separator
character, keeping empty pieces (the behaviour of Python `s.split(sep)`
for a one-character `sep`). -/
def splitCharAux (c : Char) : List Char → List Char → List (List Char)
  | [], acc => [acc.reverse]
  | x :: xs, acc =>
    if x = c then acc.reverse :: splitCharAux c xs []
    else splitCharAux c xs (x :: acc)

/-- Python `s.split(sep)` for a one-character separator. -/
def splitChar (c : Char) (s : String) : List String :=
  (splitCharAux c s.data []).map String.mk

/-- Python `sep.join(pieces)`. -/
def pyJoinSep (sep : String) : List String → String
  | [] => ""
  | a :: as => as.foldl (fun acc x => acc ++ sep ++ x) a

/-- Python `"".join(pieces)`. -/
def pyJoin (l : List String) : String :=
  l.foldl (fun acc x => acc ++ x) ""

/-- Python `a or b` for strings: `a` unless `a` is empty (falsy). -/
def pyOr (a b : String) : String :=
  if a = "" then b else a

/-- Python `s.startswith(pre)`, as used to state the archive-path contract. -/
def strStartsWith (s pre : String) : Bool :=
  pre.data.isPrefixOf s.data

/-- Python `s.endswith(suf)`, as used to state the README watermark
contract: `suf` read backwards is a prefix of `s` read backwards. -/
def strEndsWith (s suf : String) : Bool :=
  suf.data.reverse.isPrefixOf s.data.reverse

/-- Number of (start positions of) occurrences of `pat` in `l`.  The
patterns counted below (route decorators, markup tags) cannot overlap
themselves, so this equals Python's non-overlapping `str.count`. -/
def countOcc (pat : List Char) : List Char → Nat
  | [] => 0
  | c :: rest => (if pat.isPrefixOf (c :: rest) then 1 else 0) + countOcc pat rest

/-- Splitting on a multi-character separator, left to right and
non-overlapping (Python `s.split(sep)`); the `Nat` argument is fuel,
always instantiated to more than the length of the scanned list. -/
def splitStrAux (sep : List Char) : Nat → List Char → List Char → List (List Char)
  | 0, rest, acc => [acc.reverse ++ rest]
  | _ + 1, [], acc => [acc.reverse]
  | n + 1, c :: cs, acc =>
    if sep.isPrefixOf (c :: cs) then
      acc.reverse :: splitStrAux sep n ((c :: cs).drop sep.length) []
    else
      splitStrAux sep n cs (c :: acc)

/-- Python `s.split(sep)` for a non-empty separator string. -/
def pySplitStr (sep s : String) : List String :=
  (splitStrAux sep.data (s.data.length + 1) s.data []).map String.mk

/-! ## Data model (src/app.py, `new_project` / component dictionaries)

A component is a Python dict with a `"type"` and an `"id"` key and a
type-dependent subset of `"label"`, `"placeholder"`, `"options"`,
`"columns"`; the optional keys are `Option` fields here, and `c.get(k, d)`
is `(field).getD d`. -/

structure Component where
  type : String
  id : String
  label : Option String := none
  placeholder : Option String := none
  options : Option String := none
  columns : Option String := none
deriving Repr, DecidableEq

/-- `project["frontend"]` (src/app.py line 50). -/
structure FrontendConfig where
  framework : String
  themeColor : String
  accentColor : String
  darkMode : Bool
deriving Repr, DecidableEq

/-- `project["backend"]` (src/app.py line 56). -/
structure BackendConfig where
  type : String
deriving Repr, DecidableEq

/-- `project["meta"]` (src/app.py line 64). -/
structure ProjectMeta where
  version : String
  author : String
deriving Repr, DecidableEq

/-- The Project Model (src/app.py, `new_project`, lines 45-68). -/
structure Project where
  name : String
  brand : String
  created : String
  frontend : FrontendConfig
  backend : BackendConfig
  components : List Component
  meta : ProjectMeta
deriving Repr, DecidableEq

/-! ## Component registry (src/app.py, `COMP_TYPES`, lines 96-126)

Only the `"fields"` entry of each registry value is modelled; the
`"preview"` callbacks render Streamlit widgets and are outside the
embedding.  Dict indexing `COMP_TYPES[tag]` is association-list lookup,
where `none` models the `KeyError` that Python raises past the caller. -/

def COMP_TYPES : List (String × List String) :=
  [("text", ["label"]),
   ("input", ["label", "placeholder"]),
   ("button", ["label"]),
   ("checkbox", ["label"]),
   ("select", ["label", "options"]),
   ("table", ["columns"])]

/-- Association-list lookup, modelling Python dict indexing (`none` is a
`KeyError` propagating to the caller). -/
def alookup (k : String) : List (String × List String) → Option (List String)
  | [] => none
  | (k', v) :: rest => if k' = k then some v else alookup k rest

/-- `COMP_TYPES[tag]["fields"]`, as read at src/app.py lines 597 and 629. -/
def comp_types_fields (tag : String) : Option (List String) :=
  alookup tag COMP_TYPES

/-! ## Shared styles (src/app.py, `gen_shared_styles`, lines 161-197) -/

def gen_shared_styles (theme_color accent_color : String) (dark : Bool) : String :=
  let bg := if dark then "#0f172a" else "#f8fafc"
  let fg := if dark then "#e2e8f0" else "#0f172a"
  let card := if dark then "#111827" else "#ffffff"
  let border := if dark then "#1f2937" else "#e5e7eb"
  ":root \x7b\n  " ++ "-" ++ "-theme: " ++ theme_color ++ ";\n  " ++ "-" ++ "-accent: "
    ++ accent_color ++ ";\n  " ++ "-" ++ "-bg: " ++ bg ++ ";\n  " ++ "-" ++ "-fg: "
    ++ fg ++ ";\n  " ++ "-" ++ "-card: " ++ card ++ ";\n  " ++ "-" ++ "-border: "
    ++ border ++ ";\n\x7d\n* \x7b box-sizing: border-box; \x7d\nbody \x7b\n  margin: 0; background: var(--bg); color: var(--fg);\n  font-family: Inter, system-ui, -apple-system, Segoe UI, Roboto, Arial, sans-serif;\n\x7d\n.container \x7b\n  max-width: 960px; margin: 24px auto; padding: 24px;\n\x7d\n.card \x7b\n  background: var(--card); border: 1px solid var(--border); border-radius: 12px; padding: 16px; margin-bottom: 12px;\n\x7d\n.btn \x7b\n  background: var(--theme); color: white; border: none; padding: 10px 14px; border-radius: 8px; cursor: pointer;\n\x7d\n.input \x7b\n  width: 100%; padding: 10px; border: 1px solid var(--border); border-radius: 8px; margin: 6px 0 12px;\n\x7d\n.label \x7b display: block; font-weight: 600; margin: 8px 0 6px; \x7d\n.title \x7b font-size: 28px; font-weight: 700; margin: 0 0 12px; \x7d\n.brand \x7b color: var(--accent); font-weight: 700; \x7d\nhr \x7b border: none; border-top: 1px solid var(--border); margin: 16px 0; \x7d\ntable \x7b width: 100%; border-collapse: collapse; \x7d\nth, td \x7b border: 1px solid var(--border); padding: 8px; text-align: left; \x7d\n"

/-! ## React component markup (src/app.py, `react_component_jsx`, lines 199-235) -/

/-- `[o.strip() for o in s.split(",") if o.strip()]` — the comma-separated
sub-field parse used for `options` and `columns`. -/
def parse_csv_items (s : String) : List String :=
  ((splitChar ',' s).map pyStrip).filter (fun o => o ≠ "")

/-- The `opts` local of the `"select"` branch (src/app.py lines 217-218). -/
def react_select_opts (comp : Component) : String :=
  let options := parse_csv_items (comp.options.getD "")
  pyOr
    (pyJoinSep "\n          "
      (options.map (fun o => "<option value=\"" ++ o ++ "\">" ++ o ++ "</option>")))
    "<option>Option</option>"

/-- The `th` local of the `"table"` branch (src/app.py lines 227-228). -/
def react_table_th (comp : Component) : String :=
  let columns := parse_csv_items (comp.columns.getD "")
  pyOr (pyJoin (columns.map (fun c => "<th>" ++ c ++ "</th>"))) "<th>Column</th>"

/-- The body cells of the `"table"` branch (src/app.py line 232). -/
def react_table_tds (comp : Component) : String :=
  let columns := parse_csv_items (comp.columns.getD "")
  pyOr (pyJoin (columns.map (fun _ => "<td></td>"))) "<td></td>"

def react_component_jsx (comp : Component) : String :=
  let t := comp.type
  if t = "text" then
    "<div className=\"card\"><div className=\"title\">" ++ comp.label.getD ""
      ++ "</div></div>"
  else if t = "input" then
    "<div className=\"card\">\n  <label className=\"label\" htmlFor=\"" ++ comp.id
      ++ "\">" ++ comp.label.getD "Input" ++ "</label>\n  <input id=\"" ++ comp.id
      ++ "\" className=\"input\" placeholder=\"" ++ comp.placeholder.getD ""
      ++ "\" />\n</div>"
  else if t = "button" then
    "<div className=\"card\"><button className=\"btn\">" ++ comp.label.getD "Click"
      ++ "</button></div>"
  else if t = "checkbox" then
    "<div className=\"card\">\n  <label className=\"label\"><input type=\"checkbox\" id=\""
      ++ comp.id ++ "\" style=\x7b marginRight: 8 \x7d /> " ++ comp.label.getD "Checkbox"
      ++ "</label>\n</div>"
  else if t = "select" then
    "<div className=\"card\">\n  <label className=\"label\" htmlFor=\"" ++ comp.id
      ++ "\">" ++ comp.label.getD "Select" ++ "</label>\n  <select id=\"" ++ comp.id
      ++ "\" className=\"input\">\n          " ++ react_select_opts comp
      ++ "\n  </select>\n</div>"
  else if t = "table" then
    "<div className=\"card\">\n  <table>\n    <thead><tr>" ++ react_table_th comp
      ++ "</tr></thead>\n    <tbody><tr>" ++ react_table_tds comp
      ++ "</tr></tbody>\n  </table>\n</div>"
  else
    "<div className=\"card\">Unknown component</div>"

/-! ## React frontend (src/app.py, `gen_react`, lines 237-305) -/

/-- `slugify` (src/app.py lines 24-28).  The two regex substitutions
`sub("[^a-z0-9\-]+", "-")` then `sub("-+", "-")` are composed here as
"map every disallowed character to a dash, then collapse dash runs",
which yields the same string: replacing a whole disallowed run by one
dash or by one dash per character is indistinguishable after dash runs
are collapsed. -/
def slugAllowed (c : Char) : Bool :=
  ('a' ≤ c && c ≤ 'z') || ('0' ≤ c && c ≤ '9') || c == '-'

def collapseDashes : List Char → List Char
  | [] => []
  | [c] => [c]
  | a :: b :: rest =>
    if a = '-' && b = '-' then collapseDashes (b :: rest)
    else a :: collapseDashes (b :: rest)

def slugify (name : String) : String :=
  let lowered := (pyStrip name).data.map Char.toLower
  let dashed := lowered.map (fun c => if slugAllowed c then c else '-')
  let collapsed := collapseDashes dashed
  let stripped := ((collapsed.dropWhile (fun c => c = '-')).reverse.dropWhile
    (fun c => c = '-')).reverse
  pyOr (String.mk stripped) "my-app"

/-- The constant prefix of the `App.jsx` f-string, up to the interpolated
component markup (src/app.py lines 241-248). -/
def react_app_pre (app_name brand : String) : String :=
  "import \x27./styles.css\x27\n\nexport default function App() \x7b\n  return (\n    <div className=\"container\">\n      <div className=\"title\">"
    ++ app_name ++ " <span className=\"brand\">" ++ brand
    ++ "</span></div>\n      <hr/>\n      "

/-- The constant suffix of the `App.jsx` f-string after `.rstrip()`
(src/app.py lines 249-252). -/
def react_app_post : String :=
  "\n    </div>\n  )\n\x7d"

/-- The list comprehension `[react_component_jsx(c) for c in comps]`
(src/app.py line 239). -/
def gen_react_jsx_list (comps : List Component) : List String :=
  comps.map react_component_jsx

/-- `App.jsx` (src/app.py lines 239-252). -/
def gen_react_app_jsx (app_name brand : String) (comps : List Component) : String :=
  react_app_pre app_name brand
    ++ pyJoinSep "\n        " (gen_react_jsx_list comps)
    ++ react_app_post

/-- `main.jsx` (src/app.py lines 254-263, `.rstrip()` applied). -/
def react_main_jsx : String :=
  "import React from \x27react\x27\nimport ReactDOM from \x27react-dom/client\x27\nimport App from \x27./App.jsx\x27\n\nReactDOM.createRoot(document.getElementById(\x27root\x27)).render(\n  <React.StrictMode>\n    <App />\n  </React.StrictMode>,\n)"

/-- React `index.html` (src/app.py lines 265-277, `.rstrip()` applied). -/
def react_index_html : String :=
  "<!doctype html>\n<html>\n  <head>\n    <meta charset=\"UTF-8\" />\n    <meta name=\"viewport\" content=\"width=device-width, initial-scale=1\">\n    <title>App</title>\n  </head>\n  <body>\n    <div id=\"root\"></div>\n    <script type=\"module\" src=\"/src/main.jsx\"></script>\n  </body>\n</html>"

/-- `json.dumps(package_json, indent=2)` for the React `package.json`
(src/app.py lines 279-296); `slugify` output is `[a-z0-9-]` only, so no
JSON string escaping arises. -/
def react_package_json (app_name : String) : String :=
  "\x7b\n  \"name\": \"" ++ slugify app_name
    ++ "\",\n  \"private\": true,\n  \"version\": \"0.0.1\",\n  \"type\": \"module\",\n  \"scripts\": \x7b\n    \"dev\": \"vite\",\n    \"build\": \"vite build\",\n    \"preview\": \"vite preview\"\n  \x7d,\n  \"dependencies\": \x7b\n    \"react\": \"^18.3.1\",\n    \"react-dom\": \"^18.3.1\"\n  \x7d,\n  \"devDependencies\": \x7b\n    \"vite\": \"^5.2.0\"\n  \x7d\n\x7d"

/-- `gen_react` (src/app.py lines 237-305); the `files` dict in insertion
order. -/
def gen_react (app_name brand theme_color accent_color : String) (dark : Bool)
    (comps : List Component) : List (String × String) :=
  [("frontend/package.json", react_package_json app_name),
   ("frontend/index.html", react_index_html),
   ("frontend/src/App.jsx", gen_react_app_jsx app_name brand comps),
   ("frontend/src/main.jsx", react_main_jsx),
   ("frontend/src/styles.css", gen_shared_styles theme_color accent_color dark)]

/-! ## Vanilla frontend (src/app.py, `gen_vanilla`, lines 307-370) -/

/-- The `opts` local of the vanilla `"select"` branch (src/app.py
lines 326-327). -/
def vanilla_select_opts (c : Component) : String :=
  let options := parse_csv_items (c.options.getD "")
  pyOr
    (pyJoinSep "\n      "
      (options.map (fun o => "<option value=\"" ++ o ++ "\">" ++ o ++ "</option>")))
    "<option>Option</option>"

/-- The `th` local of the vanilla `"table"` branch (src/app.py
lines 335-336). -/
def vanilla_table_th (c : Component) : String :=
  let columns := parse_csv_items (c.columns.getD "")
  pyOr (pyJoin (columns.map (fun cl => "<th>" ++ cl ++ "</th>"))) "<th>Column</th>"

/-- The body cells of the vanilla `"table"` branch (src/app.py line 340). -/
def vanilla_table_tds (c : Component) : String :=
  let columns := parse_csv_items (c.columns.getD "")
  pyOr (pyJoin (columns.map (fun _ => "<td></td>"))) "<td></td>"

/-- The body of the `for c in comps` loop of `gen_vanilla` (src/app.py
lines 311-344): the single HTML block appended for one component. -/
def vanilla_component_html (c : Component) : String :=
  let t := c.type
  if t = "text" then
    "<div class=\"card\"><div class=\"title\">" ++ c.label.getD "" ++ "</div></div>"
  else if t = "input" then
    "<div class=\"card\">\n  <label class=\"label\" for=\"" ++ c.id ++ "\">"
      ++ c.label.getD "Input" ++ "</label>\n  <input id=\"" ++ c.id
      ++ "\" class=\"input\" placeholder=\"" ++ c.placeholder.getD "" ++ "\" />\n</div>"
  else if t = "button" then
    "<div class=\"card\"><button class=\"btn\">" ++ c.label.getD "Click"
      ++ "</button></div>"
  else if t = "checkbox" then
    "<div class=\"card\">\n  <label class=\"label\"><input type=\"checkbox\" id=\""
      ++ c.id ++ "\" style=\"margin-right:8px\" /> " ++ c.label.getD "Checkbox"
      ++ "</label>\n</div>"
  else if t = "select" then
    "<div class=\"card\">\n  <label class=\"label\" for=\"" ++ c.id ++ "\">"
      ++ c.label.getD "Select" ++ "</label>\n  <select id=\"" ++ c.id
      ++ "\" class=\"input\">\n      " ++ vanilla_select_opts c
      ++ "\n  </select>\n</div>"
  else if t = "table" then
    "<div class=\"card\">\n  <table>\n    <thead><tr>" ++ vanilla_table_th c
      ++ "</tr></thead>\n    <tbody><tr>" ++ vanilla_table_tds c
      ++ "</tr></tbody>\n  </table>\n</div>"
  else
    "<div class=\"card\">Unknown component</div>"

/-- The `html_parts` accumulator of `gen_vanilla`: starts empty, the loop
appends one block per component (src/app.py lines 309-344). -/
def gen_vanilla_parts (comps : List Component) : List String :=
  comps.foldl (fun acc c => acc ++ [vanilla_component_html c]) []

/-- `body_html` (src/app.py line 346). -/
def gen_vanilla_body (comps : List Component) : String :=
  pyJoinSep "\n      " (gen_vanilla_parts comps)

/-- The vanilla `index.html` f-string (src/app.py lines 347-365,
`.rstrip()` applied to the constant tail). -/
def vanilla_index_html (app_name brand styles body_html : String) : String :=
  "<!doctype html>\n<html>\n  <head>\n    <meta charset=\"UTF-8\" />\n    <meta name=\"viewport\" content=\"width=device-width, initial-scale=1\">\n    <title>"
    ++ app_name ++ "</title>\n    <style>\n" ++ styles
    ++ "\n    </style>\n  </head>\n  <body>\n    <div class=\"container\">\n      <div class=\"title\">"
    ++ app_name ++ " <span class=\"brand\">" ++ brand
    ++ "</span></div>\n      <hr/>\n      " ++ body_html
    ++ "\n    </div>\n  </body>\n</html>"

/-- `gen_vanilla` (src/app.py lines 307-370). -/
def gen_vanilla (app_name brand theme_color accent_color : String) (dark : Bool)
    (comps : List Component) : List (String × String) :=
  [("frontend/index.html",
    vanilla_index_html app_name brand (gen_shared_styles theme_color accent_color dark)
      (gen_vanilla_body comps))]

/-- `generate_frontend_files` (src/app.py lines 147-159). -/
def generate_frontend_files (project : Project) : List (String × String) :=
  if project.frontend.framework = "React" then
    gen_react project.name project.brand project.frontend.themeColor
      project.frontend.accentColor project.frontend.darkMode project.components
  else
    gen_vanilla project.name project.brand project.frontend.themeColor
      project.frontend.accentColor project.frontend.darkMode project.components

/-! ## Backend generators (src/app.py, lines 372-445) -/

/-- `main.py` emitted by `gen_fastapi_backend` (src/app.py lines 382-398,
`.rstrip()` applied). -/
def fastapi_main_py : String :=
  "from fastapi import FastAPI\nfrom fastapi.middleware.cors import CORSMiddleware\n\napp = FastAPI()\napp.add_middleware(\n    CORSMiddleware,\n    allow_origins=[\"*\"], allow_credentials=True, allow_methods=[\"*\"], allow_headers=[\"*\"]\n)\n\n@app.get(\"/\")\ndef root():\n    return \x7b\"status\": \"ok\", \"message\": \"FastAPI backend running\"\x7d\n\n@app.post(\"/echo\")\ndef echo(payload: dict):\n    return \x7b\"echo\": payload\x7d"

def fastapi_requirements : String :=
  "fastapi>=0.111.0\nuvicorn[standard]>=0.30.0\n"

def fastapi_run_sh : String :=
  "uvicorn main:app -" ++ "-reload -" ++ "-port 8000\n"

def fastapi_run_bat : String :=
  "uvicorn main:app -" ++ "-reload -" ++ "-port 8000\r\n"

/-- `gen_fastapi_backend` (src/app.py lines 381-409). -/
def gen_fastapi_backend : List (String × String) :=
  [("backend_fastapi/main.py", fastapi_main_py),
   ("backend_fastapi/requirements.txt", fastapi_requirements),
   ("backend_fastapi/run.sh", fastapi_run_sh),
   ("backend_fastapi/run.bat", fastapi_run_bat)]

/-- `server.js` emitted by `gen_express_backend` (src/app.py lines 412-423,
`.rstrip()` applied). -/
def express_server_js : String :=
  "const express = require(\x27express\x27)\nconst cors = require(\x27cors\x27)\nconst app = express()\napp.use(cors())\napp.use(express.json())\n\napp.get(\x27/\x27, (req, res) => res.json(\x7b status: \x27ok\x27, message: \x27Express backend running\x27 \x7d))\napp.post(\x27/echo\x27, (req, res) => res.json(\x7b echo: req.body \x7d))\n\nconst port = process.env.PORT || 8000\napp.listen(port, () => console.log(\x27Server on \x27 + port))"

/-- `json.dumps(package_json, indent=2)` for the Express backend
(src/app.py lines 425-436). -/
def express_package_json : String :=
  "\x7b\n  \"name\": \"backend-express\",\n  \"private\": true,\n  \"version\": \"0.0.1\",\n  \"scripts\": \x7b\n    \"dev\": \"node server.js\"\n  \x7d,\n  \"dependencies\": \x7b\n    \"express\": \"^4.19.2\",\n    \"cors\": \"^2.8.5\"\n  \x7d\n\x7d"

def express_run_sh : String :=
  "node server.js\n"

def express_run_bat : String :=
  "node server.js\r\n"

/-- `gen_express_backend` (src/app.py lines 411-445). -/
def gen_express_backend : List (String × String) :=
  [("backend_express/server.js", express_server_js),
   ("backend_express/package.json", express_package_json),
   ("backend_express/run.sh", express_run_sh),
   ("backend_express/run.bat", express_run_bat)]

/-- `generate_backend_files` (src/app.py lines 372-379). -/
def generate_backend_files (project : Project) : List (String × String) :=
  if project.backend.type = "FastAPI" then gen_fastapi_backend
  else if project.backend.type = "Express" then gen_express_backend
  else []

/-! ## README generator (src/app.py, `generate_readme`, lines 447-484) -/

def trial_notice : String :=
  "Trial build — Created with Universal App Builder (Single File)."

/-- The `lines` list of `generate_readme` before the license check
(src/app.py lines 448-480); the final `lines.append("")` of line 480 is
kept in `readme_lines` below so that the watermark suffix is isolated. -/
def readme_pre_lines (p : Project) : List String :=
  ("# " ++ p.name) :: "" :: ("Generated with Universal App Builder — Brand: " ++ p.brand)
    :: "" :: "## Project structure" :: "- frontend/"
    :: ((if p.backend.type = "FastAPI" then ["- backend_fastapi/"]
         else if p.backend.type = "Express" then ["- backend_express/"]
         else [])
      ++ ["", "## Frontend"]
      ++ (if p.frontend.framework = "React" then
            ["1. cd frontend", "2. npm install", "3. npm run dev"]
          else
            ["Open frontend/index.html in a browser or serve with any static server."])
      ++ ["", "## Backend"]
      ++ (if p.backend.type = "FastAPI" then
            ["1. cd backend_fastapi", "2. pip install -r requirements.txt",
             "3. sh run.sh  # or run.bat on Windows"]
          else if p.backend.type = "Express" then
            ["1. cd backend_express", "2. npm install",
             "3. sh run.sh  # or run.bat on Windows"]
          else ["No backend selected."]))

/-- All README lines: the unconditional part, the `lines.append("")` of
line 480, then the watermark pair appended when `not licensed`
(src/app.py lines 481-483). -/
def readme_lines (p : Project) (licensed : Bool) : List String :=
  readme_pre_lines p ++ [""]
    ++ (if licensed then [] else ["---", trial_notice])

/-- `generate_readme` (src/app.py lines 447-484): `"\n".join(lines)`. -/
def generate_readme (p : Project) (licensed : Bool) : String :=
  pyJoinSep "\n" (readme_lines p licensed)

/-! ## Archive packager (src/app.py, `build_zip`, lines 486-502)

`build_zip` writes, in order, every frontend entry, every backend entry,
then `README.md`, into a fresh in-memory zip; the archive's entry list is
modelled as the written path/content pairs in write order. -/

def build_zip_entries (project : Project) (licensed : Bool) : List (String × String) :=
  generate_frontend_files project ++ generate_backend_files project
    ++ [("README.md", generate_readme project licensed)]

/-- The `backend_<kind>` archive-path kind of the spec, for the backend
types that emit files. -/
def backend_kind_slug (t : String) : String :=
  if t = "FastAPI" then "fastapi" else if t = "Express" then "express" else ""

/-! ## Interchange format (src/app.py, `ui_builder`, lines 631-645)

Saving is `json.dumps(project, indent=2)`; loading is `json.loads`
followed by the unconditional assignment `st.session_state.project = data`
inside `try/except`.  The embedding works at the level of JSON values: a
`Json` tree mirrors what `json.loads` returns (Python's
`json.loads(json.dumps(v))` is the identity on such values), `encodeProject`
is the JSON document `json.dumps` writes for a Project dict, and
`decodeProject` reads the expected record shape back. -/

inductive Json where
  | str : String → Json
  | bool : Bool → Json
  | num : Int → Json
  | null : Json
  | arr : List Json → Json
  | obj : List (String × Json) → Json
deriving Repr

/-- Key lookup in a JSON object (Python dict access on the parsed value). -/
def jlookup (k : String) : List (String × Json) → Option Json
  | [] => none
  | (k', v) :: rest => if k' = k then some v else jlookup k rest

/-- One optional component key: present in the dict iff the field is set. -/
def optField (k : String) : Option String → List (String × Json)
  | some v => [(k, Json.str v)]
  | none => []

/-- The JSON object `json.dumps` writes for one component dict. -/
def encodeComponent (c : Component) : Json :=
  Json.obj ([("type", Json.str c.type), ("id", Json.str c.id)]
    ++ optField "label" c.label
    ++ optField "placeholder" c.placeholder
    ++ optField "options" c.options
    ++ optField "columns" c.columns)

/-- An optional string-valued key, read back from a component object. -/
def decodeOptStr (k : String) (kv : List (String × Json)) : Option String :=
  match jlookup k kv with
  | some (Json.str s) => some s
  | _ => none

def decodeComponent (j : Json) : Option Component :=
  match j with
  | Json.obj kv =>
    match jlookup "type" kv, jlookup "id" kv with
    | some (Json.str t), some (Json.str i) =>
      some { type := t, id := i,
             label := decodeOptStr "label" kv,
             placeholder := decodeOptStr "placeholder" kv,
             options := decodeOptStr "options" kv,
             columns := decodeOptStr "columns" kv }
    | _, _ => none
  | _ => none

def decodeComponents : List Json → Option (List Component)
  | [] => some []
  | j :: rest =>
    match decodeComponent j, decodeComponents rest with
    | some c, some cs => some (c :: cs)
    | _, _ => none

/-- The JSON document `json.dumps(project, indent=2)` serializes
(src/app.py line 634), as a JSON value: the project dict in insertion
order (src/app.py lines 45-68). -/
def encodeProject (p : Project) : Json :=
  Json.obj
    [("name", Json.str p.name),
     ("brand", Json.str p.brand),
     ("created", Json.str p.created),
     ("frontend", Json.obj
       [("framework", Json.str p.frontend.framework),
        ("themeColor", Json.str p.frontend.themeColor),
        ("accentColor", Json.str p.frontend.accentColor),
        ("darkMode", Json.bool p.frontend.darkMode)]),
     ("backend", Json.obj [("type", Json.str p.backend.type)]),
     ("components", Json.arr (p.components.map encodeComponent)),
     ("meta", Json.obj
       [("version", Json.str p.meta.version),
        ("author", Json.str p.meta.author)])]

/-- Reading a parsed JSON value back as the expected Project record shape. -/
def decodeProject (j : Json) : Option Project :=
  match j with
  | Json.obj kv =>
    match jlookup "name" kv, jlookup "brand" kv, jlookup "created" kv,
        jlookup "frontend" kv, jlookup "backend" kv, jlookup "components" kv,
        jlookup "meta" kv with
    | some (Json.str name), some (Json.str brand), some (Json.str created),
        some (Json.obj fkv), some (Json.obj bkv), some (Json.arr comps),
        some (Json.obj mkv) =>
      match jlookup "framework" fkv, jlookup "themeColor" fkv,
          jlookup "accentColor" fkv, jlookup "darkMode" fkv,
          jlookup "type" bkv, jlookup "version" mkv, jlookup "author" mkv,
          decodeComponents comps with
      | some (Json.str fw), some (Json.str tc), some (Json.str ac),
          some (Json.bool dm), some (Json.str bt), some (Json.str ver),
          some (Json.str au), some cs =>
        some { name := name, brand := brand, created := created,
               frontend := ⟨fw, tc, ac, dm⟩, backend := ⟨bt⟩,
               components := cs, meta := ⟨ver, au⟩ }
      | _, _, _, _, _, _, _, _ => none
    | _, _, _, _, _, _, _ => none
  | _ => none

/-- The load handler of `ui_builder` (src/app.py lines 637-645): the
argument is the outcome of `json.loads` on the uploaded bytes (`none` when
it raises), the result is the new session project value paired with
whether the error path ran.  On success the parsed value is assigned to
`st.session_state.project` unconditionally. -/
def ui_load_project (parsed : Option Json) (current : Json) : Json × Bool :=
  match parsed with
  | some data => (data, false)
  | none => (current, true)

/-! ## Entity parser (AI-builder variant)

Modelled from the spec: the naive entity parser belongs to the AI-builder
variant of this repository and is not part of `src/app.py`; the spec
defines it as deriving `{name, ordered list of field names}` entities "by
splitting a free-text prompt on literal `\" and \"` and on parenthesis
characters", with no escaping and no validation, and fixes its behaviour
with the inventory-prompt example.  For each `" and "`-separated segment
that has a parenthesized part, the entity name is the last word before
`(` and the fields are the comma-separated names before `)`. -/

def parse_entities (prompt : String) : List (String × List String) :=
  (pySplitStr " and " prompt).filterMap (fun seg =>
    match splitChar '(' seg with
    | before :: inside :: _ =>
      let name := ((splitChar ' ' (pyStrip before)).getLastD "")
      let fields := (splitChar ',' ((splitChar ')' inside).headD "")).map pyStrip
      some (name, fields)
    | _ => none)

/-! ## Sample projects (concrete instances for witnesses, mirroring the
shape of `new_project`, src/app.py lines 45-68, with a fixed timestamp) -/

def sample_components : List Component :=
  [{ type := "text", id := "title1", label := some "Welcome to your app!" },
   { type := "input", id := "name", label := some "Your name",
     placeholder := some "Enter your name" },
   { type := "button", id := "cta", label := some "Submit" }]

def react_sample_project : Project :=
  { name := "My Awesome App", brand := "YourBrand",
    created := "2025-01-01T00:00:00Z",
    frontend := { framework := "React", themeColor := "#1273de",
                  accentColor := "#FFB703", darkMode := false },
    backend := { type := "FastAPI" },
    components := sample_components,
    meta := { version := "0.1.0", author := "You" } }

def vue_sample_project : Project :=
  { react_sample_project with
    frontend := { framework := "Vue", themeColor := "#1273de",
                  accentColor := "#FFB703", darkMode := false } }

def express_sample_project : Project :=
  { react_sample_project with backend := { type := "Express" } }

def none_sample_project : Project :=
  { react_sample_project with backend := { type := "None" } }

/-- A component whose type tag is outside the six known tags. -/
def unknown_sample_component : Component :=
  { type := "slider", id := "x1", label := some "Level" }

/-- A select component whose options string is whitespace-only. -/
def degenerate_select_component : Component :=
  { type := "select", id := "sel1", label := some "Choose option",
    options := some "  ,  ,  " }

/-- A table component whose columns string is whitespace-only. -/
def degenerate_table_component : Component :=
  { type := "table", id := "tab1", columns := some "   " }

/-! ## Helper lemmas -/

theorem foldl_append_singleton_eq_map {α β : Type} (f : α → β) :
    ∀ (l : List α) (init : List β),
      l.foldl (fun acc c => acc ++ [f c]) init = init ++ l.map f := by
  intro l
  induction l with
  | nil => intro init; simp
  | cons a as ih => intro init; simp [ih]

theorem listIsPrefixOf_append_self (l t : List Char) :
    l.isPrefixOf (l ++ t) = true := by
  induction l with
  | nil => simp [List.isPrefixOf]
  | cons a as ih => simp [List.isPrefixOf, ih]

theorem str_append_empty (s : String) : s ++ "" = s := by
  cases s with
  | mk l => show String.mk (l ++ []) = String.mk l; rw [List.append_nil]

theorem pyJoinSep_append_singleton (sep : String) (xs : List String) (x : String)
    (h : xs ≠ []) :
    pyJoinSep sep (xs ++ [x]) = pyJoinSep sep xs ++ sep ++ x := by
  cases xs with
  | nil => exact absurd rfl h
  | cons a as => simp [pyJoinSep, List.foldl_append]

theorem readme_pre_lines_ne_nil (p : Project) : readme_pre_lines p ≠ [] := by
  unfold readme_pre_lines
  exact List.cons_ne_nil _ _

theorem generate_readme_true (p : Project) :
    generate_readme p true = pyJoinSep "\n" (readme_pre_lines p) ++ "\n" := by
  unfold generate_readme readme_lines
  rw [if_pos rfl, List.append_nil,
    pyJoinSep_append_singleton _ _ _ (readme_pre_lines_ne_nil p), str_append_empty]

theorem generate_readme_false (p : Project) :
    generate_readme p false
      = pyJoinSep "\n" (readme_pre_lines p ++ ["", "---"]) ++ "\n" ++ trial_notice := by
  unfold generate_readme readme_lines
  have h : readme_pre_lines p ++ [""] ++ (if false then [] else ["---", trial_notice])
      = (readme_pre_lines p ++ ["", "---"]) ++ [trial_notice] := by simp
  rw [h, pyJoinSep_append_singleton _ _ _ (by simp)]

theorem strEndsWith_append_self (z suf : String) :
    strEndsWith (z ++ suf) suf = true := by
  unfold strEndsWith
  rw [String.data_append, List.reverse_append]
  exact listIsPrefixOf_append_self _ _

theorem strEndsWith_newline_ne_trial (j : String) :
    strEndsWith (j ++ "\n") trial_notice = false := by
  have h : trial_notice.data.reverse = '.' :: trial_notice.data.reverse.tail := by decide
  unfold strEndsWith
  rw [String.data_append, h, show ("\n" : String).data = ['\n'] from rfl,
    List.reverse_append]
  rfl

theorem decodeComponent_encodeComponent (c : Component) :
    decodeComponent (encodeComponent c) = some c := by
  rcases c with ⟨t, i, lab, ph, opts, cols⟩
  cases lab <;> cases ph <;> cases opts <;> cases cols <;> rfl

theorem decodeComponents_map (cs : List Component) :
    decodeComponents (cs.map encodeComponent) = some cs := by
  induction cs with
  | nil => rfl
  | cons c rest ih =>
    simp [decodeComponents, decodeComponent_encodeComponent, ih]

/-! ## Claim theorems -/

set_option maxRecDepth 40000

/-- Claim C1: for every Project Model and any list of Components, the
emitted frontend markup — the React `App.jsx` body when the framework is
`"React"`, the Vanilla `index.html` body otherwise — contains exactly one
rendered block per Component, and the blocks appear in the same order as
the Component list: the `html_parts` accumulator of `gen_vanilla` equals
the list with exactly one block per component in component order (and so
do its length and every position), the React comprehension likewise, and
each emitted document is the corresponding joined block list spliced
between the constant template parts. -/
theorem C1_one_block_per_component_in_order (app_name brand theme accent : String)
    (dark : Bool) (comps : List Component) (i : Nat) :
    gen_vanilla_parts comps = comps.map vanilla_component_html
    ∧ (gen_vanilla_parts comps).length = comps.length
    ∧ (gen_vanilla_parts comps)[i]? = (comps[i]?).map vanilla_component_html
    ∧ (gen_react_jsx_list comps).length = comps.length
    ∧ (gen_react_jsx_list comps)[i]? = (comps[i]?).map react_component_jsx
    ∧ gen_react_app_jsx app_name brand comps
      = react_app_pre app_name brand
        ++ pyJoinSep "\n        " (comps.map react_component_jsx) ++ react_app_post
    ∧ gen_vanilla_body comps = pyJoinSep "\n      " (comps.map vanilla_component_html)
    ∧ gen_vanilla app_name brand theme accent dark comps
      = [("frontend/index.html",
          vanilla_index_html app_name brand (gen_shared_styles theme accent dark)
            (gen_vanilla_body comps))] := by
  have hparts : gen_vanilla_parts comps = comps.map vanilla_component_html := by
    unfold gen_vanilla_parts
    rw [foldl_append_singleton_eq_map]
    simp
  refine ⟨hparts, ?_, ?_, ?_, ?_, rfl, ?_, rfl⟩
  · rw [hparts]; simp
  · rw [hparts]; exact List.getElem?_map _ _ _
  · simp [gen_react_jsx_list]
  · simp [gen_react_jsx_list, List.getElem?_map]
  · unfold gen_vanilla_body
    rw [hparts]

/-- Claim C2: the `licensed` flag controls exactly one thing.  The archive
entry list is the frontend files, then the backend files — neither of
which takes the flag — then `README.md`; every entry except the final
README is identical between a licensed and an unlicensed export; and the
README text ends with the trial notice iff `licensed` is false. -/
theorem C2_licensed_flag_controls_only_readme (p : Project) (licensed : Bool) :
    build_zip_entries p licensed
      = generate_frontend_files p ++ generate_backend_files p
        ++ [("README.md", generate_readme p licensed)]
    ∧ (build_zip_entries p licensed).dropLast = (build_zip_entries p (!licensed)).dropLast
    ∧ strEndsWith (generate_readme p licensed) trial_notice = !licensed := by
  refine ⟨rfl, by simp [build_zip_entries], ?_⟩
  cases licensed with
  | false =>
    rw [generate_readme_false]
    exact strEndsWith_append_self _ _
  | true =>
    rw [generate_readme_true]
    exact strEndsWith_newline_ne_trial _

/-- Claim C3: when the backend type is `"None"` no backend file is
produced; for the `"FastAPI"` and `"Express"` selections the generated
server file declares exactly one read (GET) route and one write (POST)
route — the single default resource, there being no entity list in this
Project Model. -/
theorem C3_backend_route_counts (p : Project) :
    (p.backend.type = "None" → generate_backend_files p = [])
    ∧ (p.backend.type = "FastAPI" → generate_backend_files p = gen_fastapi_backend)
    ∧ (p.backend.type = "Express" → generate_backend_files p = gen_express_backend)
    ∧ countOcc ("@app.get(").data fastapi_main_py.data = 1
    ∧ countOcc ("@app.post(").data fastapi_main_py.data = 1
    ∧ countOcc ("app.get(").data express_server_js.data = 1
    ∧ countOcc ("app.post(").data express_server_js.data = 1 := by
  refine ⟨?_, ?_, ?_, by decide, by decide, by decide, by decide⟩
  · intro h
    unfold generate_backend_files
    rw [h]
    rfl
  · intro h
    unfold generate_backend_files
    rw [h]
    rfl
  · intro h
    unfold generate_backend_files
    rw [h]
    rfl

theorem C3_backend_route_counts_witness :
    generate_backend_files none_sample_project = []
    ∧ generate_backend_files react_sample_project = gen_fastapi_backend
    ∧ generate_backend_files express_sample_project = gen_express_backend :=
  ⟨(C3_backend_route_counts none_sample_project).1 rfl,
   (C3_backend_route_counts react_sample_project).2.1 rfl,
   (C3_backend_route_counts express_sample_project).2.2.1 rfl⟩

/-- Claim C4: the archive contains exactly the frontend generator's paths,
the backend generator's paths and `README.md`, in write order with no
extra entries; every frontend path starts with `frontend/`, every backend
path starts with `backend_<kind>/` for the kind matching the backend type,
`README.md` has no directory separator (archive root), and the entry list
(paths and contents) is a deterministic function of the Project Model and
the licensed flag. -/
theorem C4_archive_path_contract (p : Project) (licensed : Bool) :
    build_zip_entries p licensed
      = generate_frontend_files p ++ generate_backend_files p
        ++ [("README.md", generate_readme p licensed)]
    ∧ ((generate_frontend_files p).map Prod.fst).all
        (fun s => strStartsWith s "frontend/") = true
    ∧ ((generate_backend_files p).map Prod.fst).all
        (fun s =>
          strStartsWith s ("backend_" ++ backend_kind_slug p.backend.type ++ "/")) = true
    ∧ (("README.md" : String).data.contains '/') = false
    ∧ (∀ p' l', p = p' → licensed = l' →
        build_zip_entries p licensed = build_zip_entries p' l') := by
  refine ⟨rfl, ?_, ?_, by decide, ?_⟩
  · unfold generate_frontend_files
    by_cases h : p.frontend.framework = "React"
    · rw [if_pos h]; rfl
    · rw [if_neg h]; rfl
  · unfold generate_backend_files backend_kind_slug
    by_cases h1 : p.backend.type = "FastAPI"
    · rw [h1]; rfl
    · by_cases h2 : p.backend.type = "Express"
      · rw [h2]; rfl
      · rw [if_neg h1, if_neg h2, if_neg h1, if_neg h2]; rfl
  · intro p' l' hp hl
    rw [hp, hl]

theorem C4_archive_path_contract_witness :
    build_zip_entries react_sample_project true = build_zip_entries react_sample_project true :=
  (C4_archive_path_contract react_sample_project true).2.2.2.2 react_sample_project true rfl rfl

/-- Claim C5: a `select` Component whose options string parses to the
empty list, and a `table` Component whose columns string parses to the
empty list, still render well-formed markup with exactly one placeholder
entry — one `<option>Option</option>` element, or one `<th>Column</th>`
header cell (with one matching empty body cell) — in both the React and
the Vanilla generator. -/
theorem C5_degenerate_select_table_placeholder (c : Component) :
    (c.type = "select" → parse_csv_items (c.options.getD "") = [] →
      react_select_opts c = "<option>Option</option>"
      ∧ vanilla_select_opts c = "<option>Option</option>"
      ∧ countOcc ("<option").data ("<option>Option</option>").data = 1
      ∧ react_component_jsx c
        = "<div className=\"card\">\n  <label className=\"label\" htmlFor=\"" ++ c.id
          ++ "\">" ++ c.label.getD "Select" ++ "</label>\n  <select id=\"" ++ c.id
          ++ "\" className=\"input\">\n          " ++ "<option>Option</option>"
          ++ "\n  </select>\n</div>"
      ∧ vanilla_component_html c
        = "<div class=\"card\">\n  <label class=\"label\" for=\"" ++ c.id ++ "\">"
          ++ c.label.getD "Select" ++ "</label>\n  <select id=\"" ++ c.id
          ++ "\" class=\"input\">\n      " ++ "<option>Option</option>"
          ++ "\n  </select>\n</div>")
    ∧ (c.type = "table" → parse_csv_items (c.columns.getD "") = [] →
      react_table_th c = "<th>Column</th>"
      ∧ react_table_tds c = "<td></td>"
      ∧ vanilla_table_th c = "<th>Column</th>"
      ∧ vanilla_table_tds c = "<td></td>"
      ∧ countOcc ("<th>").data ("<th>Column</th>").data = 1
      ∧ react_component_jsx c
        = "<div className=\"card\">\n  <table>\n    <thead><tr>" ++ "<th>Column</th>"
          ++ "</tr></thead>\n    <tbody><tr>" ++ "<td></td>"
          ++ "</tr></tbody>\n  </table>\n</div>"
      ∧ vanilla_component_html c
        = "<div class=\"card\">\n  <table>\n    <thead><tr>" ++ "<th>Column</th>"
          ++ "</tr></thead>\n    <tbody><tr>" ++ "<td></td>"
          ++ "</tr></tbody>\n  </table>\n</div>") := by
  constructor
  · intro ht hempty
    have hr : react_select_opts c = "<option>Option</option>" := by
      unfold react_select_opts
      rw [hempty]
      rfl
    have hv : vanilla_select_opts c = "<option>Option</option>" := by
      unfold vanilla_select_opts
      rw [hempty]
      rfl
    refine ⟨hr, hv, by decide, ?_, ?_⟩
    · unfold react_component_jsx
      rw [ht, hr]
      rfl
    · unfold vanilla_component_html
      rw [ht, hv]
      rfl
  · intro ht hempty
    have h1 : react_table_th c = "<th>Column</th>" := by
      unfold react_table_th
      rw [hempty]
      rfl
    have h2 : react_table_tds c = "<td></td>" := by
      unfold react_table_tds
      rw [hempty]
      rfl
    have h3 : vanilla_table_th c = "<th>Column</th>" := by
      unfold vanilla_table_th
      rw [hempty]
      rfl
    have h4 : vanilla_table_tds c = "<td></td>" := by
      unfold vanilla_table_tds
      rw [hempty]
      rfl
    refine ⟨h1, h2, h3, h4, by decide, ?_, ?_⟩
    · unfold react_component_jsx
      rw [ht, h1, h2]
      rfl
    · unfold vanilla_component_html
      rw [ht, h3, h4]
      rfl

theorem C5_degenerate_select_table_placeholder_witness :
    react_select_opts degenerate_select_component = "<option>Option</option>"
    ∧ vanilla_table_th degenerate_table_component = "<th>Column</th>" :=
  ⟨(((C5_degenerate_select_table_placeholder degenerate_select_component).1
      rfl (by decide))).1,
   (((C5_degenerate_select_table_placeholder degenerate_table_component).2
      rfl (by decide))).2.2.1⟩

/-- Claim C6: serializing a Project Model to the JSON interchange document
and reloading it reproduces an equal Project Model, field for field (no
field is excluded from export). -/
theorem C6_interchange_roundtrip (p : Project) :
    decodeProject (encodeProject p) = some p := by
  rcases p with ⟨n, b, cr, ⟨fw, tc, ac, dm⟩, ⟨bt⟩, comps, ⟨ver, au⟩⟩
  have h := decodeComponents_map comps
  simp [encodeProject, decodeProject, jlookup, h]

/-- Claim C7 counterexample: the component registry lookup does not fail
closed.  `COMP_TYPES[tag]` (read at src/app.py lines 597 and 629) is dict
indexing, modelled by `comp_types_fields`, where `none` is the `KeyError`
Python raises past the caller; for the unknown tag `"slider"` the lookup
yields `none` — an exception, not an "unknown component" placeholder —
while known tags succeed. -/
theorem C7_counterexample_registry_lookup_raises :
    comp_types_fields "slider" = none
    ∧ (comp_types_fields "text").isSome = true := ⟨rfl, rfl⟩

/-- Claim C7 (amended): for an unknown component type tag the two markup
generators fail closed, rendering a visible "Unknown component"
placeholder block, but the component registry lookup `COMP_TYPES[tag]`
fails open: it raises `KeyError` (modelled as `none`) past the caller. -/
theorem C7_amended_unknown_tag_behaviour (c : Component)
    (h1 : c.type ≠ "text") (h2 : c.type ≠ "input") (h3 : c.type ≠ "button")
    (h4 : c.type ≠ "checkbox") (h5 : c.type ≠ "select") (h6 : c.type ≠ "table") :
    react_component_jsx c = "<div className=\"card\">Unknown component</div>"
    ∧ vanilla_component_html c = "<div class=\"card\">Unknown component</div>"
    ∧ comp_types_fields c.type = none := by
  refine ⟨?_, ?_, ?_⟩
  · unfold react_component_jsx
    rw [if_neg h1, if_neg h2, if_neg h3, if_neg h4, if_neg h5, if_neg h6]
  · unfold vanilla_component_html
    rw [if_neg h1, if_neg h2, if_neg h3, if_neg h4, if_neg h5, if_neg h6]
  · simp [comp_types_fields, COMP_TYPES, alookup,
      Ne.symm h1, Ne.symm h2, Ne.symm h3, Ne.symm h4, Ne.symm h5, Ne.symm h6]

theorem C7_amended_unknown_tag_behaviour_witness :
    react_component_jsx unknown_sample_component
      = "<div className=\"card\">Unknown component</div>"
    ∧ vanilla_component_html unknown_sample_component
      = "<div class=\"card\">Unknown component</div>"
    ∧ comp_types_fields unknown_sample_component.type = none :=
  C7_amended_unknown_tag_behaviour unknown_sample_component
    (by decide) (by decide) (by decide) (by decide) (by decide) (by decide)

/-- Claim C8 counterexample: loading performs no record-shape validation.
The uploaded document `[]` parses as JSON, so `ui_builder` (src/app.py
lines 637-645) assigns the parsed value to the session project wholesale
and reports no error, although the value is not a Project record shape
(`decodeProject` rejects it) — the previous in-memory Project is
discarded. -/
theorem C8_counterexample_no_shape_validation :
    ui_load_project (some (Json.arr [])) (encodeProject react_sample_project)
      = (Json.arr [], false)
    ∧ decodeProject (Json.arr []) = none := ⟨rfl, rfl⟩

/-- Claim C8 (amended): loading validates only JSON well-formedness.  When
`json.loads` raises, a user-visible error is reported and the in-memory
project is left unchanged; when the document parses as any JSON value —
of the expected record shape or not — that value replaces the in-memory
project wholesale with no error reported. -/
theorem C8_amended_load_behaviour (cur d : Json) :
    ui_load_project none cur = (cur, true)
    ∧ ui_load_project (some d) cur = (d, false) := ⟨rfl, rfl⟩

/-- Claim C9: the naive entity parser — splitting the free-text prompt on
the literal `" and "` and on parenthesis characters — maps the inventory
prompt to exactly the entities products:[name, price] and
suppliers:[name, contact].  (The parser is modelled from the spec; it is
not part of src/app.py.) -/
theorem C9_inventory_prompt_entities :
    parse_entities
        "Inventory app with products (name, price) and suppliers (name, contact)"
      = [("products", ["name", "price"]), ("suppliers", ["name", "contact"])] := by
  decide

/-- Claim C10: any frontend framework value other than `"React"`
(including `"Vue"`) takes the Vanilla branch, whose output is exactly the
single file `frontend/index.html`; only `"React"` produces the multi-file
React output. -/
theorem C10_non_react_framework_takes_vanilla (p : Project) :
    (p.frontend.framework ≠ "React" →
      generate_frontend_files p
        = gen_vanilla p.name p.brand p.frontend.themeColor p.frontend.accentColor
            p.frontend.darkMode p.components
      ∧ (generate_frontend_files p).map Prod.fst = ["frontend/index.html"])
    ∧ (p.frontend.framework = "React" →
      (generate_frontend_files p).map Prod.fst
        = ["frontend/package.json", "frontend/index.html", "frontend/src/App.jsx",
           "frontend/src/main.jsx", "frontend/src/styles.css"]) := by
  constructor
  · intro h
    unfold generate_frontend_files
    rw [if_neg h]
    exact ⟨rfl, rfl⟩
  · intro h
    unfold generate_frontend_files
    rw [if_pos h]
    rfl

theorem C10_non_react_framework_takes_vanilla_witness :
    (generate_frontend_files vue_sample_project).map Prod.fst = ["frontend/index.html"]
    ∧ (generate_frontend_files react_sample_project).map Prod.fst
      = ["frontend/package.json", "frontend/index.html", "frontend/src/App.jsx",
         "frontend/src/main.jsx", "frontend/src/styles.css"] :=
  ⟨((C10_non_react_framework_takes_vanilla vue_sample_project).1 (by decide)).2,
   (C10_non_react_framework_takes_vanilla react_sample_project).2 rfl⟩
